import Mathlib

/-!
Verification development for the andon-system server
(src/server/output_handler.h, src/server/output_handler.cpp,
src/server/server.cpp).

The embedding models:
* the file system as a total map `String → List String` from paths to the
  list of text lines of the file at that path (a missing file is `[]`);
* the persistence queue `data_queue` as a `List (String × GPIOData)`;
* the worker loop `processDataQueue` and the producers as a small
  transition system whose trace interleaves enqueues, worker iterations
  and the stop signal;
* a client connection as the list of results of successive `recv` calls;
* JSON documents as an inductive `Json` type with nlohmann-style
  `value(key, default)` extraction (wrong-type access fails, as
  `json::type_error` does).

Abstractions: C++ `double` is carried as `Rat` and its stream rendering is
a fixed injective-enough rendering function `renderTimeDiff`; the
`excel_files` bookkeeping map of `OutputHandler` stores only the path
string and is observed by nothing, so it is not carried in the state;
console logging (`std::cout` / `std::cerr`) is dropped.
-/

namespace Andon

/-- `struct GPIOData` from output_handler.h, lines 20-25.
`double time_diff_sec` is modelled as `Rat`. -/
structure GPIOData where
  pin : Int
  state : String
  time_diff_sec : Rat
  timestamp : String
deriving Repr, DecidableEq

/-- `GPIO_PIN_NAMES` from output_handler.h, lines 13-18: the fixed
pin-number → label table (a `std::map<int, std::string>`). -/
def GPIO_PIN_NAMES : List (Int × String) :=
  [(23, "Green"), (24, "Yellow"), (25, "Red"), (12, "Load")]

/-- `OutputHandler::getPinName` from output_handler.cpp, lines 58-64:
table lookup, falling back to `"Pin_" + std::to_string(pin)`. -/
def getPinName (pin : Int) : String :=
  match List.lookup pin GPIO_PIN_NAMES with
  | some name => name
  | none => "Pin_" ++ toString pin

/-- The header row written at output_handler.cpp line 83. -/
def headerRow : String := "Timestamp,Pin,State,Time Difference (sec)"

/-- Rendering of the `double time_diff_sec` field by `operator<<`
(output_handler.cpp line 90), abstracted to a rendering of `Rat`. -/
def renderTimeDiff (q : Rat) : String :=
  if q.den = 1 then toString q.num else toString q.num ++ "/" ++ toString q.den

/-- The data row written at output_handler.cpp lines 87-90:
timestamp, resolved pin label, state, time difference, comma-delimited. -/
def dataRow (data : GPIOData) : String :=
  data.timestamp ++ "," ++ getPinName data.pin ++ ","
    ++ data.state ++ "," ++ renderTimeDiff data.time_diff_sec

/-- Point update of the file-system map. -/
def updateFS (files : String → List String) (path : String)
    (content : List String) : String → List String :=
  fun q => if q = path then content else files q

/-- The CSV path computed at output_handler.cpp line 77:
`output_dir + "/" + excel_prefix + device_name + ".csv"`. -/
def csvPath (output_dir excel_prefix device_name : String) : String :=
  output_dir ++ "/" ++ excel_prefix ++ device_name ++ ".csv"

/-- `OutputHandler::addDataToExcel` from output_handler.cpp, lines 66-111:
open the device's CSV file in append mode (creating it if missing), write
the header row iff the file is currently empty, then append one data row.
The `.xlsx` existence probe and `createNewExcel` (lines 71-73, 113-120)
only touch the `excel_files` bookkeeping map, which stores a path string
nothing ever reads; file contents are unaffected by them. -/
def addDataToExcel (output_dir excel_prefix : String)
    (files : String → List String) (device_name : String) (data : GPIOData) :
    String → List String :=
  let path := csvPath output_dir excel_prefix device_name
  let content := files path
  let content' := if content = [] then [headerRow] else content
  updateFS files path (content' ++ [dataRow data])

/-- Appending a sequence of events for one device: repeated
`addDataToExcel` calls, in order. -/
def appendEvents (output_dir excel_prefix : String)
    (files : String → List String) (device_name : String)
    (events : List GPIOData) : String → List String :=
  events.foldl (fun fs d => addDataToExcel output_dir excel_prefix fs device_name d) files

/-- `OutputHandler::addData` from output_handler.cpp, lines 52-56:
push `(device_name, data)` at the back of `data_queue`, return `true`. -/
def addData (queue : List (String × GPIOData)) (device_name : String)
    (data : GPIOData) : Bool × List (String × GPIOData) :=
  (true, queue ++ [(device_name, data)])

/-- State of the persistence subsystem: the queue, the sequence of entries
handed to `addDataToExcel` so far (in call order), the file system, and
the `running` flag of `OutputHandler`. -/
structure SysState where
  queue : List (String × GPIOData)
  processed : List (String × GPIOData)
  files : String → List String
  running : Bool

/-- One observable operation of the persistence subsystem:
a producer's `addData` call, one iteration of the worker loop
`processDataQueue` (output_handler.cpp lines 31-49), or the stop signal
`running = false` set by `cleanup` (line 124). -/
inductive SysOp where
  | enq (device_name : String) (data : GPIOData)
  | work
  | stop

/-- Transition function. `work` mirrors one iteration of
`processDataQueue`: if `running` and the queue is non-empty, pop the front
entry and pass it to `addDataToExcel`; on an empty queue the iteration
only sleeps. Once `running` is false the loop has exited, so `work` does
nothing. -/
def applyOp (output_dir excel_prefix : String) (s : SysState) :
    SysOp → SysState
  | SysOp.enq device_name data =>
      { s with queue := (addData s.queue device_name data).2 }
  | SysOp.work =>
      if s.running then
        match s.queue with
        | [] => s
        | item :: rest =>
            { s with
              queue := rest
              processed := s.processed ++ [item]
              files := addDataToExcel output_dir excel_prefix s.files item.1 item.2 }
      else s
  | SysOp.stop => { s with running := false }

/-- A trace of operations applied in order. -/
def runOps (output_dir excel_prefix : String) (s : SysState)
    (ops : List SysOp) : SysState :=
  ops.foldl (applyOp output_dir excel_prefix) s

/-- The entries submitted by producers during a trace, in order. -/
def enqueuedOf (ops : List SysOp) : List (String × GPIOData) :=
  ops.filterMap fun op =>
    match op with
    | SysOp.enq device_name data => some (device_name, data)
    | _ => none

/-- `OutputHandler::cleanup` from output_handler.cpp, lines 122-132:
sets `running` to false (then joins the worker thread; the join itself
changes no state). -/
def cleanup (s : SysState) : SysState := { s with running := false }

/-- A JSON document, as decoded by `nlohmann::json::parse`. Integer and
floating-point numbers are kept apart, as nlohmann does; floats are
carried as `Rat`. -/
inductive Json where
  | null
  | bool (b : Bool)
  | int (n : Int)
  | num (q : Rat)
  | str (s : String)
  | arr (elems : List Json)
  | obj (fields : List (String × Json))
deriving Repr

/-- Truncation of a rational toward zero: the value of
`static_cast<int>` applied to a C++ double. -/
def ratTrunc (q : Rat) : Int :=
  Int.sign q.num * ((q.num.natAbs / q.den : Nat) : Int)

/-- nlohmann conversion of a JSON value to `std::string`: only a JSON
string converts; any other type raises `json::type_error` (302). -/
def asStr : Json → Except String String
  | Json.str s => Except.ok s
  | _ => Except.error "type_error.302 type must be string"

/-- nlohmann conversion of a JSON value to `int`: any JSON number
converts (a float by truncation toward zero); any other type raises
`json::type_error` (302). -/
def asInt : Json → Except String Int
  | Json.int n => Except.ok n
  | Json.num q => Except.ok (ratTrunc q)
  | _ => Except.error "type_error.302 type must be number"

/-- nlohmann conversion of a JSON value to `double`: any JSON number
converts; any other type raises `json::type_error` (302). -/
def asRat : Json → Except String Rat
  | Json.int n => Except.ok (n : Rat)
  | Json.num q => Except.ok q
  | _ => Except.error "type_error.302 type must be number"

/-- `json::value(key, std::string default)`: on a non-object document
raises `json::type_error` (306); on an object, returns the default when
the key is absent and otherwise converts the stored value. -/
def valueStr (j : Json) (key dflt : String) : Except String String :=
  match j with
  | Json.obj fields =>
      match List.lookup key fields with
      | none => Except.ok dflt
      | some v => asStr v
  | _ => Except.error "type_error.306 cannot use value() with this type"

/-- `json::value(key, int default)`; see `valueStr`. -/
def valueInt (j : Json) (key : String) (dflt : Int) : Except String Int :=
  match j with
  | Json.obj fields =>
      match List.lookup key fields with
      | none => Except.ok dflt
      | some v => asInt v
  | _ => Except.error "type_error.306 cannot use value() with this type"

/-- `json::value(key, double default)`; see `valueStr`. -/
def valueRat (j : Json) (key : String) (dflt : Rat) : Except String Rat :=
  match j with
  | Json.obj fields =>
      match List.lookup key fields with
      | none => Except.ok dflt
      | some v => asRat v
  | _ => Except.error "type_error.306 cannot use value() with this type"

/-- Field extraction and `GPIOData` construction from a decoded document,
server.cpp lines 201-215. `now` is the value `getCurrentTime()` would
return at receipt. Extraction happens in source order; the first
`json::type_error` aborts (caught at server.cpp line 234 as
`std::exception`). Returns the `(device_name, gpio_data)` pair passed to
`addData` at line 218. -/
def buildEvent (j : Json) (now : String) :
    Except String (String × GPIOData) :=
  match valueStr j "device_name" "unknown" with
  | Except.error e => Except.error e
  | Except.ok device_name =>
  match valueInt j "pin" 0 with
  | Except.error e => Except.error e
  | Except.ok pin =>
  match valueStr j "state" "unknown" with
  | Except.error e => Except.error e
  | Except.ok state =>
  match valueRat j "time_diff_sec" 0 with
  | Except.error e => Except.error e
  | Except.ok time_diff_sec =>
  match valueStr j "timestamp" now with
  | Except.error e => Except.error e
  | Except.ok timestamp =>
      Except.ok (device_name,
        { pin := pin, state := state,
          time_diff_sec := time_diff_sec, timestamp := timestamp })

/-- Result of one `recv` call at server.cpp line 180: a chunk of bytes
(`bytes_received > 0`), an orderly close (`bytes_received == 0`), a
socket error, or expiry of the 5-second `SO_RCVTIMEO` idle timeout (both
`bytes_received < 0`). -/
inductive RecvResult where
  | chunk (s : String)
  | closed
  | sockError
  | timeout
deriving Repr, DecidableEq

/-- The receive loop of `AndonServer::handleClient`, server.cpp lines
179-194, over the connection's successive `recv` results. Accumulates
chunks into `acc` and after each chunk attempts `json::parse` on the
whole accumulation; a successful parse ends the loop (second component
`true`); `bytes_received <= 0` — a close, an error, a timeout, or an
empty chunk — ends it with `false`, as does exhausting the trace (the
peer sends nothing further, so the next `recv` times out). `parse`
stands for `json::parse`, returning `none` where the C++ call throws
`json::parse_error`. -/
def recvLoop (parse : String → Option Json) :
    List RecvResult → String → String × Bool
  | [], acc => (acc, false)
  | RecvResult.chunk s :: rest, acc =>
      if s = "" then (acc, false)
      else
        let acc' := acc ++ s
        match parse acc' with
        | some _ => (acc', true)
        | none => recvLoop parse rest acc'
  | RecvResult.closed :: _, acc => (acc, false)
  | RecvResult.sockError :: _, acc => (acc, false)
  | RecvResult.timeout :: _, acc => (acc, false)

/-- Observable outcome of `AndonServer::handleClient` for one
connection: the single reply sent (if any), the persistence queue after
the call, and the number of `CLOSE_SOCKET` calls made. -/
structure ClientResult where
  reply : Option String
  queue : List (String × GPIOData)
  closeCount : Nat
deriving Repr, DecidableEq

/-- `AndonServer::handleClient`, server.cpp lines 165-247: run the
receive loop; if the accumulated data is empty, send nothing; otherwise
parse it (`json::parse_error` → `"ERROR: Invalid JSON format"`), build
the event (`std::exception` → `"ERROR: Internal server error"`), enqueue
it with `addData` and reply `"OK"` on `true`,
`"ERROR: Failed to process data"` on `false`. `CLOSE_SOCKET` runs exactly
once at line 245 on every path. -/
def handleClient (parse : String → Option Json) (reads : List RecvResult)
    (now : String) (queue : List (String × GPIOData)) : ClientResult :=
  let data := (recvLoop parse reads "").1
  if data = "" then
    { reply := none, queue := queue, closeCount := 1 }
  else
    match parse data with
    | none =>
        { reply := some "ERROR: Invalid JSON format", queue := queue,
          closeCount := 1 }
    | some j =>
        match buildEvent j now with
        | Except.error _ =>
            { reply := some "ERROR: Internal server error", queue := queue,
              closeCount := 1 }
        | Except.ok (device_name, gpio_data) =>
            match addData queue device_name gpio_data with
            | (true, queue') =>
                { reply := some "OK", queue := queue', closeCount := 1 }
            | (false, queue') =>
                { reply := some "ERROR: Failed to process data",
                  queue := queue', closeCount := 1 }

/-! ## Theorems -/

/-- C4: pin-name resolution is a total function on the integers: each
pin in `GPIO_PIN_NAMES` maps to its fixed label (23 → "Green",
24 → "Yellow", 25 → "Red", 12 → "Load"), and every other integer maps to
"Pin_" followed by its decimal rendering. -/
theorem C4_getPinName_total_spec :
    (getPinName 23 = "Green" ∧ getPinName 24 = "Yellow" ∧
     getPinName 25 = "Red" ∧ getPinName 12 = "Load") ∧
    (∀ n : Int, n ≠ 23 → n ≠ 24 → n ≠ 25 → n ≠ 12 →
      getPinName n = "Pin_" ++ toString n) := by
  refine ⟨⟨rfl, rfl, rfl, rfl⟩, ?_⟩
  intro n h23 h24 h25 h12
  have b23 : (n == 23) = false := by simp [h23]
  have b24 : (n == 24) = false := by simp [h24]
  have b25 : (n == 25) = false := by simp [h25]
  have b12 : (n == 12) = false := by simp [h12]
  simp [getPinName, GPIO_PIN_NAMES, List.lookup, b23, b24, b25, b12]

/-- Witness for C4 at the unknown pin 99. -/
theorem C4_getPinName_total_spec_witness :
    getPinName 99 = "Pin_" ++ toString (99 : Int) :=
  C4_getPinName_total_spec.2 99 (by decide) (by decide) (by decide) (by decide)

/-- C2: one `addDataToExcel` call appends exactly one row — the event's
timestamp, resolved pin label, state and time difference, in that order,
comma-delimited — to the file at `output_dir ++ "/" ++ excel_prefix ++
device_name ++ ".csv"` (after the header when the file was empty), keeps
the existing content of that file as a prefix, and leaves every other
file unchanged. -/
theorem C2_addDataToExcel_appends_one_row
    (output_dir excel_prefix device_name : String)
    (files : String → List String) (data : GPIOData) :
    (addDataToExcel output_dir excel_prefix files device_name data)
        (output_dir ++ "/" ++ excel_prefix ++ device_name ++ ".csv")
      = (if files (output_dir ++ "/" ++ excel_prefix ++ device_name ++ ".csv") = []
           then [headerRow]
           else files (output_dir ++ "/" ++ excel_prefix ++ device_name ++ ".csv"))
        ++ [data.timestamp ++ "," ++ getPinName data.pin ++ ","
              ++ data.state ++ "," ++ renderTimeDiff data.time_diff_sec] ∧
    (∀ q, q ≠ output_dir ++ "/" ++ excel_prefix ++ device_name ++ ".csv" →
      (addDataToExcel output_dir excel_prefix files device_name data) q
        = files q) := by
  constructor
  · simp [addDataToExcel, csvPath, updateFS, dataRow, String.append_assoc]
  · intro q hq
    simp only [addDataToExcel, csvPath, updateFS]
    rw [if_neg]
    intro hcontra
    exact hq (by simpa [String.append_assoc] using hcontra)

/-- Witness for C2 on a concrete file system and event. -/
theorem C2_addDataToExcel_appends_one_row_witness :
    (addDataToExcel "data" "data_" (fun _ => []) "press1"
        { pin := 25, state := "on", time_diff_sec := 0, timestamp := "TS" })
        ("data" ++ "/" ++ "data_" ++ "press1" ++ ".csv")
      = (if (fun _ => ([] : List String)) ("data" ++ "/" ++ "data_" ++ "press1" ++ ".csv") = []
           then [headerRow] else [])
        ++ ["TS" ++ "," ++ getPinName 25 ++ "," ++ "on" ++ "," ++ renderTimeDiff 0] ∧
    (addDataToExcel "data" "data_" (fun _ => []) "press1"
        { pin := 25, state := "on", time_diff_sec := 0, timestamp := "TS" })
        "data/data_press2.csv" = [] :=
  ⟨(C2_addDataToExcel_appends_one_row "data" "data_" "press1" (fun _ => [])
      { pin := 25, state := "on", time_diff_sec := 0, timestamp := "TS" }).1,
   (C2_addDataToExcel_appends_one_row "data" "data_" "press1" (fun _ => [])
      { pin := 25, state := "on", time_diff_sec := 0, timestamp := "TS" }).2
     "data/data_press2.csv" (by decide)⟩

/-- Once the device's file starts with the header row, every further
append leaves the header alone and adds one data row at the end. -/
theorem appendEvents_preserves_header (output_dir excel_prefix device_name : String)
    (events : List GPIOData) (files : String → List String) (rest : List String)
    (h : files (csvPath output_dir excel_prefix device_name) = headerRow :: rest) :
    (appendEvents output_dir excel_prefix files device_name events)
        (csvPath output_dir excel_prefix device_name)
      = headerRow :: (rest ++ events.map dataRow) := by
  induction events generalizing files rest with
  | nil => simpa [appendEvents] using h
  | cons e es ih =>
    have h1 : (addDataToExcel output_dir excel_prefix files device_name e)
        (csvPath output_dir excel_prefix device_name)
        = headerRow :: (rest ++ [dataRow e]) := by
      simp [addDataToExcel, updateFS, h]
    have h2 := ih (addDataToExcel output_dir excel_prefix files device_name e)
      (rest ++ [dataRow e]) h1
    simpa [appendEvents, List.append_assoc] using h2

/-- C1: starting from an absent (empty) log file, appending N ≥ 1 events
for a device produces a file whose first line is the header row,
followed by exactly the N data rows in order; the header is written
exactly once, before any data row. -/
theorem C1_header_once (output_dir excel_prefix device_name : String)
    (files : String → List String) (events : List GPIOData)
    (hempty : files (output_dir ++ "/" ++ excel_prefix ++ device_name ++ ".csv") = [])
    (hne : events ≠ []) :
    (appendEvents output_dir excel_prefix files device_name events)
        (output_dir ++ "/" ++ excel_prefix ++ device_name ++ ".csv")
      = headerRow :: events.map dataRow ∧
    ((appendEvents output_dir excel_prefix files device_name events)
        (output_dir ++ "/" ++ excel_prefix ++ device_name ++ ".csv")).length
      = events.length + 1 := by
  have hpath : csvPath output_dir excel_prefix device_name
      = output_dir ++ "/" ++ excel_prefix ++ device_name ++ ".csv" := rfl
  cases events with
  | nil => exact absurd rfl hne
  | cons e es =>
    have h0 : (addDataToExcel output_dir excel_prefix files device_name e)
        (csvPath output_dir excel_prefix device_name)
        = headerRow :: [dataRow e] := by
      have hempty' : files (csvPath output_dir excel_prefix device_name) = [] := by
        rw [hpath]; exact hempty
      simp [addDataToExcel, updateFS, hempty']
    have h1 := appendEvents_preserves_header output_dir excel_prefix device_name
      es (addDataToExcel output_dir excel_prefix files device_name e) [dataRow e] h0
    rw [hpath] at h1
    constructor
    · simpa [appendEvents] using h1
    · have : (appendEvents output_dir excel_prefix files device_name (e :: es))
          (output_dir ++ "/" ++ excel_prefix ++ device_name ++ ".csv")
          = headerRow :: (e :: es).map dataRow := by
        simpa [appendEvents] using h1
      rw [this]
      simp

/-- Witness for C1: two events for one device starting from an empty
file system. -/
theorem C1_header_once_witness :
    (appendEvents "data" "data_" (fun _ => []) "press1"
        [{ pin := 25, state := "on", time_diff_sec := 0, timestamp := "T1" },
         { pin := 23, state := "off", time_diff_sec := 1, timestamp := "T2" }])
        ("data" ++ "/" ++ "data_" ++ "press1" ++ ".csv")
      = headerRow ::
          List.map dataRow
            [{ pin := 25, state := "on", time_diff_sec := 0, timestamp := "T1" },
             { pin := 23, state := "off", time_diff_sec := 1, timestamp := "T2" }] :=
  (C1_header_once "data" "data_" "press1" (fun _ => [])
    [{ pin := 25, state := "on", time_diff_sec := 0, timestamp := "T1" },
     { pin := 23, state := "off", time_diff_sec := 1, timestamp := "T2" }]
    rfl (by decide)).1

/-- Trace invariant of the persistence subsystem: the entries already
handed to the log store, followed by the entries still queued, are
exactly the initial contents followed by the submissions of the trace,
in order. -/
theorem runOps_processed_append_queue (output_dir excel_prefix : String)
    (ops : List SysOp) (s : SysState) :
    (runOps output_dir excel_prefix s ops).processed
        ++ (runOps output_dir excel_prefix s ops).queue
      = s.processed ++ s.queue ++ enqueuedOf ops := by
  induction ops generalizing s with
  | nil => simp [runOps, enqueuedOf]
  | cons op rest ih =>
    have hstep : runOps output_dir excel_prefix s (op :: rest)
        = runOps output_dir excel_prefix (applyOp output_dir excel_prefix s op) rest := rfl
    rw [hstep, ih]
    cases op with
    | enq device_name data =>
        simp [applyOp, addData, enqueuedOf, List.append_assoc]
    | work =>
        cases hrun : s.running with
        | false => simp [applyOp, hrun, enqueuedOf]
        | true =>
            cases hq : s.queue with
            | nil => simp [applyOp, hrun, hq, enqueuedOf]
            | cons item restq =>
                simp [applyOp, hrun, hq, enqueuedOf, List.append_assoc]
    | stop => simp [applyOp, enqueuedOf]

/-- C5: the queue is FIFO. Over any trace of producer submissions and
worker iterations starting from an empty queue, the sequence of entries
handed to the log store followed by the entries still queued equals the
submission sequence; in particular the processed sequence is a prefix of
the submission order — no duplication, no reordering. -/
theorem C5_queue_fifo (output_dir excel_prefix : String)
    (files : String → List String) (ops : List SysOp) :
    (runOps output_dir excel_prefix
          { queue := [], processed := [], files := files, running := true } ops).processed
        ++ (runOps output_dir excel_prefix
          { queue := [], processed := [], files := files, running := true } ops).queue
      = enqueuedOf ops ∧
    (runOps output_dir excel_prefix
        { queue := [], processed := [], files := files, running := true } ops).processed
      <+: enqueuedOf ops := by
  have h := runOps_processed_append_queue output_dir excel_prefix ops
    { queue := [], processed := [], files := files, running := true }
  simp only [List.nil_append, List.append_nil] at h
  exact ⟨h, ⟨_, h⟩⟩

/-- Once `running` is false, a trace changes nothing but the queue,
which only receives the trace's submissions: no entry is processed, no
file written, and the flag stays down. -/
theorem runOps_stopped (output_dir excel_prefix : String)
    (ops : List SysOp) (s : SysState) (h : s.running = false) :
    (runOps output_dir excel_prefix s ops).processed = s.processed ∧
    (runOps output_dir excel_prefix s ops).files = s.files ∧
    (runOps output_dir excel_prefix s ops).queue = s.queue ++ enqueuedOf ops ∧
    (runOps output_dir excel_prefix s ops).running = false := by
  induction ops generalizing s with
  | nil => exact ⟨rfl, rfl, by simp [runOps, enqueuedOf], h⟩
  | cons op rest ih =>
    have hstep : runOps output_dir excel_prefix s (op :: rest)
        = runOps output_dir excel_prefix (applyOp output_dir excel_prefix s op) rest := rfl
    cases op with
    | enq device_name data =>
        have h' : (applyOp output_dir excel_prefix s (SysOp.enq device_name data)).running
            = false := h
        have := ih (applyOp output_dir excel_prefix s (SysOp.enq device_name data)) h'
        rw [hstep]
        refine ⟨this.1, ⟨this.2.1, ⟨?_, this.2.2.2⟩⟩⟩
        rw [this.2.2.1]
        simp [applyOp, addData, enqueuedOf, List.append_assoc]
    | work =>
        have hw : applyOp output_dir excel_prefix s SysOp.work = s := by
          simp [applyOp, h]
        rw [hstep, hw]
        have := ih s h
        exact ⟨this.1, ⟨this.2.1, ⟨by rw [this.2.2.1]; simp [enqueuedOf], this.2.2.2⟩⟩⟩
    | stop =>
        have hs : applyOp output_dir excel_prefix s SysOp.stop = s := by
          have : ({ s with running := false } : SysState) = s := by
            cases s; simp_all
          simpa [applyOp] using this
        rw [hstep, hs]
        have := ih s h
        exact ⟨this.1, ⟨this.2.1, ⟨by rw [this.2.2.1]; simp [enqueuedOf], this.2.2.2⟩⟩⟩

/-- C9: after `cleanup` sets `running` to false, the worker loop does no
further work over any continuation trace: nothing more is handed to the
log store, no file changes, and entries still queued stay queued
(growing only by later submissions) — the queue is not drained. -/
theorem C9_stop_no_drain (output_dir excel_prefix : String)
    (s : SysState) (ops : List SysOp) :
    (runOps output_dir excel_prefix (cleanup s) ops).processed = s.processed ∧
    (runOps output_dir excel_prefix (cleanup s) ops).files = s.files ∧
    (runOps output_dir excel_prefix (cleanup s) ops).queue
      = s.queue ++ enqueuedOf ops := by
  have h := runOps_stopped output_dir excel_prefix ops (cleanup s) rfl
  exact ⟨h.1, h.2.1, h.2.2.1⟩

/-- Equation: a non-empty chunk is appended and the accumulation is
parsed. -/
theorem recvLoop_chunk_ne (parse : String → Option Json)
    (rest : List RecvResult) (acc s : String) (hs : s ≠ "") :
    recvLoop parse (RecvResult.chunk s :: rest) acc
      = match parse (acc ++ s) with
        | some _ => (acc ++ s, true)
        | none => recvLoop parse rest (acc ++ s) := by
  simp [recvLoop, hs]

/-- If the receive loop ends without a successful parse, the
accumulated data is empty or fails to parse: every accumulation the loop
tested failed, and the final accumulation was tested last. -/
theorem recvLoop_no_parse (parse : String → Option Json)
    (reads : List RecvResult) (acc d : String)
    (hacc : acc = "" ∨ parse acc = none)
    (h : recvLoop parse reads acc = (d, false)) :
    d = "" ∨ parse d = none := by
  induction reads generalizing acc with
  | nil =>
      have hd : d = acc := by
        have := congrArg Prod.fst h
        simpa [recvLoop] using this.symm
      rw [hd]; exact hacc
  | cons r rest ih =>
      cases r with
      | chunk s =>
          by_cases hs : s = ""
          · subst hs
            have hd : d = acc := by
              have := congrArg Prod.fst h
              simpa [recvLoop] using this.symm
            rw [hd]; exact hacc
          · rw [recvLoop_chunk_ne parse rest acc s hs] at h
            cases hp : parse (acc ++ s) with
            | some j =>
                rw [hp] at h
                have := congrArg Prod.snd h
                simp at this
            | none =>
                rw [hp] at h
                exact ih (acc ++ s) (Or.inr hp) h
      | closed =>
          have hd : d = acc := by
            have := congrArg Prod.fst h
            simpa [recvLoop] using this.symm
          rw [hd]; exact hacc
      | sockError =>
          have hd : d = acc := by
            have := congrArg Prod.fst h
            simpa [recvLoop] using this.symm
          rw [hd]; exact hacc
      | timeout =>
          have hd : d = acc := by
            have := congrArg Prod.fst h
            simpa [recvLoop] using this.symm
          rw [hd]; exact hacc

/-- C6: when the receive loop ends because a read returned zero bytes,
an error, or the 5-second idle timeout (rather than by a successful
parse), the handler closes the connection without processing data: the
queue is unchanged — no event is built or enqueued, so no row can ever
be written for this connection — and the socket is closed exactly once. -/
theorem C6_read_failure_no_data (parse : String → Option Json)
    (reads : List RecvResult) (now : String)
    (queue : List (String × GPIOData)) (d : String)
    (h : recvLoop parse reads "" = (d, false)) :
    (handleClient parse reads now queue).queue = queue ∧
    (handleClient parse reads now queue).closeCount = 1 := by
  have hd : d = "" ∨ parse d = none :=
    recvLoop_no_parse parse reads "" d (Or.inl rfl) h
  unfold handleClient
  rw [h]
  by_cases h0 : d = ""
  · simp [h0]
  · have hp : parse d = none := hd.resolve_left h0
    simp [h0, hp]

/-- Witness for C6: a connection whose only read times out. -/
theorem C6_read_failure_no_data_witness :
    (handleClient (fun _ => none) [RecvResult.timeout] "T" []).queue = [] ∧
    (handleClient (fun _ => none) [RecvResult.timeout] "T" []).closeCount = 1 :=
  C6_read_failure_no_data (fun _ => none) [RecvResult.timeout] "T" [] "" rfl

/-- C7: when the receive loop ends without a successful parse but with a
non-empty accumulation — non-decodable bytes were received — the handler
replies exactly "ERROR: Invalid JSON format", enqueues nothing, and
closes the connection once. -/
theorem C7_invalid_json_reply (parse : String → Option Json)
    (reads : List RecvResult) (now : String)
    (queue : List (String × GPIOData)) (d : String)
    (h : recvLoop parse reads "" = (d, false)) (hne : d ≠ "") :
    handleClient parse reads now queue
      = { reply := some "ERROR: Invalid JSON format", queue := queue,
          closeCount := 1 } := by
  have hp : parse d = none :=
    (recvLoop_no_parse parse reads "" d (Or.inl rfl) h).resolve_left hne
  unfold handleClient
  rw [h]
  simp [hne, hp]

/-- Witness for C7: a single chunk of bytes no parse accepts. -/
theorem C7_invalid_json_reply_witness :
    handleClient (fun _ => none) [RecvResult.chunk "not json"] "T" []
      = { reply := some "ERROR: Invalid JSON format", queue := [],
          closeCount := 1 } :=
  C7_invalid_json_reply (fun _ => none) [RecvResult.chunk "not json"] "T" []
    "not json" rfl (by decide)

/-- The handler's reply is one of: nothing, "OK", the invalid-format
error, or the internal error. -/
theorem handleClient_reply_cases (parse : String → Option Json)
    (reads : List RecvResult) (now : String)
    (queue : List (String × GPIOData)) :
    (handleClient parse reads now queue).reply = none ∨
    (handleClient parse reads now queue).reply = some "OK" ∨
    (handleClient parse reads now queue).reply
      = some "ERROR: Invalid JSON format" ∨
    (handleClient parse reads now queue).reply
      = some "ERROR: Internal server error" := by
  unfold handleClient
  by_cases h0 : (recvLoop parse reads "").1 = ""
  · simp [h0]
  · simp only [h0, if_neg h0]
    cases hp : parse (recvLoop parse reads "").1 with
    | none => simp [hp]
    | some j =>
        cases hb : buildEvent j now with
        | error e => simp [hb]
        | ok pair =>
            obtain ⟨device_name, gpio_data⟩ := pair
            simp [hb, addData]

/-- C8: enqueueing never fails — `addData` returns true on every input —
so the handler's "ERROR: Failed to process data" reply branch is
unreachable: no run of `handleClient` produces that reply. -/
theorem C8_addData_never_fails :
    (∀ (queue : List (String × GPIOData)) (device_name : String)
        (data : GPIOData), (addData queue device_name data).1 = true) ∧
    (∀ (parse : String → Option Json) (reads : List RecvResult)
        (now : String) (queue : List (String × GPIOData)),
      (handleClient parse reads now queue).reply
        ≠ some "ERROR: Failed to process data") := by
  constructor
  · intro queue device_name data
    rfl
  · intro parse reads now queue hcontra
    rcases handleClient_reply_cases parse reads now queue with h | h | h | h <;>
      rw [h] at hcontra <;> simp_all

/-- Witness for C8 on a concrete successful run. -/
theorem C8_addData_never_fails_witness :
    (addData [] "press1"
        { pin := 25, state := "on", time_diff_sec := 0, timestamp := "T" }).1
      = true ∧
    (handleClient (fun _ => some (Json.obj [])) [RecvResult.chunk "x"] "T" []).reply
      ≠ some "ERROR: Failed to process data" :=
  ⟨C8_addData_never_fails.1 [] "press1"
      { pin := 25, state := "on", time_diff_sec := 0, timestamp := "T" },
   C8_addData_never_fails.2 (fun _ => some (Json.obj [])) [RecvResult.chunk "x"] "T" []⟩

/-- C10: the socket is closed exactly once on every path, and a
connection that delivers no bytes gets no reply at all and enqueues
nothing; every reply-sending path requires at least one received byte. -/
theorem C10_zero_bytes_no_reply (parse : String → Option Json)
    (reads : List RecvResult) (now : String)
    (queue : List (String × GPIOData)) :
    (handleClient parse reads now queue).closeCount = 1 ∧
    ((recvLoop parse reads "").1 = "" →
      (handleClient parse reads now queue).reply = none ∧
      (handleClient parse reads now queue).queue = queue) := by
  constructor
  · unfold handleClient
    by_cases h0 : (recvLoop parse reads "").1 = ""
    · simp [h0]
    · simp only [h0, if_neg h0]
      cases hp : parse (recvLoop parse reads "").1 with
      | none => simp [hp]
      | some j =>
          cases hb : buildEvent j now with
          | error e => simp [hb]
          | ok pair =>
              obtain ⟨device_name, gpio_data⟩ := pair
              simp [hb, addData]
  · intro h0
    unfold handleClient
    simp [h0]

/-- Witness for C10: a connection closed before any byte arrives. -/
theorem C10_zero_bytes_no_reply_witness :
    (handleClient (fun _ => none) [RecvResult.closed] "T" []).reply = none ∧
    (handleClient (fun _ => none) [RecvResult.closed] "T" []).queue = [] :=
  (C10_zero_bytes_no_reply (fun _ => none) [RecvResult.closed] "T" []).2 rfl

/-- C3: whenever field extraction from a decoded JSON object succeeds,
the event is built from the message's own values where the keys are
present, and otherwise from the defaults: device_name "unknown", pin 0,
state "unknown", time_diff_sec 0, timestamp = the server's current time
at receipt. -/
theorem C3_event_fields_defaults (fields : List (String × Json)) (now : String)
    (device_name : String) (gpio : GPIOData)
    (h : buildEvent (Json.obj fields) now = Except.ok (device_name, gpio)) :
    (List.lookup "device_name" fields = none → device_name = "unknown") ∧
    (∀ s, List.lookup "device_name" fields = some (Json.str s) → device_name = s) ∧
    (List.lookup "pin" fields = none → gpio.pin = 0) ∧
    (∀ n, List.lookup "pin" fields = some (Json.int n) → gpio.pin = n) ∧
    (List.lookup "state" fields = none → gpio.state = "unknown") ∧
    (∀ s, List.lookup "state" fields = some (Json.str s) → gpio.state = s) ∧
    (List.lookup "time_diff_sec" fields = none → gpio.time_diff_sec = 0) ∧
    (∀ q, List.lookup "time_diff_sec" fields = some (Json.num q) →
      gpio.time_diff_sec = q) ∧
    (List.lookup "timestamp" fields = none → gpio.timestamp = now) ∧
    (∀ s, List.lookup "timestamp" fields = some (Json.str s) →
      gpio.timestamp = s) := by
  unfold buildEvent at h
  cases hdn : valueStr (Json.obj fields) "device_name" "unknown" with
  | error e => rw [hdn] at h; simp at h
  | ok dn =>
  rw [hdn] at h
  cases hpin : valueInt (Json.obj fields) "pin" 0 with
  | error e => rw [hpin] at h; simp at h
  | ok pn =>
  rw [hpin] at h
  cases hst : valueStr (Json.obj fields) "state" "unknown" with
  | error e => rw [hst] at h; simp at h
  | ok st =>
  rw [hst] at h
  cases htd : valueRat (Json.obj fields) "time_diff_sec" 0 with
  | error e => rw [htd] at h; simp at h
  | ok td =>
  rw [htd] at h
  cases hts : valueStr (Json.obj fields) "timestamp" now with
  | error e => rw [hts] at h; simp at h
  | ok ts =>
  rw [hts] at h
  have hpair := Except.ok.inj h
  injection hpair with h1 h2
  subst h1
  subst h2
  refine ⟨?_, ?_, ?_, ?_, ?_, ?_, ?_, ?_, ?_, ?_⟩
  · intro hk; simp [valueStr, hk] at hdn; exact hdn.symm
  · intro s hk; simp [valueStr, hk, asStr] at hdn; exact hdn.symm
  · intro hk; simp [valueInt, hk] at hpin; simp [hpin.symm]
  · intro n hk; simp [valueInt, hk, asInt] at hpin; simp [hpin.symm]
  · intro hk; simp [valueStr, hk] at hst; simp [hst.symm]
  · intro s hk; simp [valueStr, hk, asStr] at hst; simp [hst.symm]
  · intro hk; simp [valueRat, hk] at htd; simp [htd.symm]
  · intro q hk; simp [valueRat, hk, asRat] at htd; simp [htd.symm]
  · intro hk; simp [valueStr, hk] at hts; simp [hts.symm]
  · intro s hk; simp [valueStr, hk, asStr] at hts; simp [hts.symm]

/-- Witness for C3: a message carrying device_name and pin, omitting
state, time_diff_sec and timestamp. -/
theorem C3_event_fields_defaults_witness :
    buildEvent
        (Json.obj [("device_name", Json.str "press1"), ("pin", Json.int 25)]) "T"
      = Except.ok ("press1",
          { pin := 25, state := "unknown", time_diff_sec := 0, timestamp := "T" }) ∧
    ("press1" : String) = "press1" ∧
    ({ pin := 25, state := "unknown", time_diff_sec := 0, timestamp := "T" }
        : GPIOData).timestamp = "T" :=
  ⟨rfl,
   (C3_event_fields_defaults
      [("device_name", Json.str "press1"), ("pin", Json.int 25)] "T" "press1"
      { pin := 25, state := "unknown", time_diff_sec := 0, timestamp := "T" }
      rfl).2.1 "press1" rfl,
   (C3_event_fields_defaults
      [("device_name", Json.str "press1"), ("pin", Json.int 25)] "T" "press1"
      { pin := 25, state := "unknown", time_diff_sec := 0, timestamp := "T" }
      rfl).2.2.2.2.2.2.2.2.1 rfl⟩

end Andon
